import Mathlib

/-!
Shallow embedding of the guest-vs-authenticated request gating and token
lifecycle logic of the route-rishi travel-assistant backend
(backend/app/middleware/auth_middleware.py, backend/app/services/jwt_service.py,
backend/app/services/auth_service.py, backend/app/services/weather_service.py,
backend/app/api/v1/endpoints/chat.py, backend/app/api/v1/endpoints/auth.py),
together with theorems settling the spec's claims about it.

Modelling conventions:
- POSIX timestamps (`time.time()`, `datetime.now(timezone.utc).timestamp()`)
  are modelled as integers (the code only compares and subtracts them).
  The several clock reads inside one request handler are modelled as a single
  instant `now` per request.
- Python dicts keyed by strings are modelled as functions `String → Option v`.
- Python's `set` of blacklisted tokens is modelled as a duplicate-free list.
-/

namespace RouteRishi

/-- One `guest_sessions` record (auth_middleware.py lines 60-64):
a dict with keys `chat_count`, `created_at`, `last_chat_at`. -/
structure GuestSession where
  chat_count : Nat
  created_at : Int
  last_chat_at : Int
  deriving Repr, DecidableEq

/-- The module-level `guest_sessions : Dict[str, Dict[str, Any]]`
(auth_middleware.py line 18), modelled as a map from session key to record. -/
def GuestSessions : Type := String → Option GuestSession

/-- The initial empty `guest_sessions` dict. -/
def emptySessions : GuestSessions := fun _ => none

/-- `AuthMiddleware.GUEST_CHAT_LIMIT = 5` (auth_middleware.py line 25). -/
def GUEST_CHAT_LIMIT : Nat := 5

/-- `AuthMiddleware.GUEST_SESSION_DURATION = 24 * 60 * 60` seconds
(auth_middleware.py line 26). -/
def GUEST_SESSION_DURATION : Int := 24 * 60 * 60

/-- `AuthMiddleware._cleanup_expired_guest_sessions` (auth_middleware.py lines
41-51): delete every session whose age `current_time - session["created_at"]`
exceeds `GUEST_SESSION_DURATION`. -/
def cleanupExpiredGuestSessions (now : Int) (gs : GuestSessions) : GuestSessions :=
  fun k =>
    match gs k with
    | some s => if now - s.created_at > GUEST_SESSION_DURATION then none else some s
    | none => none

/-- `AuthMiddleware._get_or_create_guest_session` (auth_middleware.py lines
53-66): run the cleanup, then return the existing record for the key, or insert
and return a fresh record with `chat_count = 0`, `created_at = time.time()`,
`last_chat_at = 0`. -/
def getOrCreateGuestSession (now : Int) (key : String) (gs : GuestSessions) :
    GuestSession × GuestSessions :=
  let gs1 := cleanupExpiredGuestSessions now gs
  match gs1 key with
  | some s => (s, gs1)
  | none =>
    let fresh : GuestSession := ⟨0, now, 0⟩
    (fresh, fun k => if k = key then some fresh else gs1 k)

/-- Mutation of the record object stored under `key`
(the Python code mutates the dict value in place). -/
def setSession (key : String) (s : GuestSession) (gs : GuestSessions) : GuestSessions :=
  fun k => if k = key then some s else gs k

/-- `AuthMiddleware._increment_guest_chat_count` (auth_middleware.py lines
68-72): fetch (or create) the session, then `chat_count += 1` and
`last_chat_at = time.time()`. -/
def incrementGuestChatCount (now : Int) (key : String) (gs : GuestSessions) :
    GuestSessions :=
  let r := getOrCreateGuestSession now key gs
  setSession key { r.1 with chat_count := r.1.chat_count + 1, last_chat_at := now } r.2

/-- Outcome of the `get_current_user_with_guest_limit` dependency for an
unauthenticated (guest) request: admitted, or rejected with HTTP 403. -/
inductive GuestAdmission where
  | admitted
  | rejected403
  deriving Repr, DecidableEq

/-- The `detail` string of the 403 raised at auth_middleware.py lines 148-151. -/
def guestLimitDetail : String :=
  "Guest chat limit reached. Please sign up for unlimited access. Limit: "
    ++ toString GUEST_CHAT_LIMIT ++ " chats per 24 hours."

/-- `get_current_user_with_guest_limit` (auth_middleware.py lines 127-153),
guest branch (no valid credentials): fetch or create the guest session and
reject with 403 when `chat_count >= GUEST_CHAT_LIMIT`, otherwise admit.
The admission itself performs no write beyond `_get_or_create_guest_session`. -/
def getCurrentUserWithGuestLimit (now : Int) (key : String) (gs : GuestSessions) :
    GuestAdmission × GuestSessions :=
  let r := getOrCreateGuestSession now key gs
  if r.1.chat_count ≥ GUEST_CHAT_LIMIT then (.rejected403, r.2) else (.admitted, r.2)

/-- Result of the `get_guest_chat_status` helper (auth_middleware.py lines
161-175): the dict returned for frontend display. -/
structure GuestChatStatus where
  chat_count : Nat
  chat_limit : Nat
  remaining_chats : Int
  is_limit_reached : Bool
  deriving Repr, DecidableEq

/-- `get_guest_chat_status` (auth_middleware.py lines 161-175). -/
def getGuestChatStatus (now : Int) (key : String) (gs : GuestSessions) :
    GuestChatStatus × GuestSessions :=
  let r := getOrCreateGuestSession now key gs
  ({ chat_count := r.1.chat_count
     chat_limit := GUEST_CHAT_LIMIT
     remaining_chats := max 0 ((GUEST_CHAT_LIMIT : Int) - (r.1.chat_count : Int))
     is_limit_reached := decide (r.1.chat_count ≥ GUEST_CHAT_LIMIT) }, r.2)

/-- Outcome of the `send_message` chat handler, as seen by the client:
success, or an HTTPException with status code and detail. -/
inductive ChatOutcome where
  | ok
  | httpError (code : Nat) (detail : String)
  deriving Repr, DecidableEq

/-- The `detail` string of the 500 raised at chat.py lines 216-219. -/
def chatFailureDetail : String := "Failed to process message. Please try again."

/-- The `detail` string of the 400 raised at chat.py lines 100-104. -/
def emptyMessageDetail : String := "Message cannot be empty"

/-- `send_message` (chat.py lines 89-219) for an unauthenticated request.
The `get_current_user_with_guest_limit` dependency resolves first; then the
handler validates the message, runs the Firestore/agent work (abstracted by
`processingOk`; any exception there is translated to a generic 500 by the
`except Exception` boundary at lines 214-219), and calls
`increment_guest_chat` only after the agent response succeeded (line 198-200). -/
def sendMessageGuest (now : Int) (key : String) (gs : GuestSessions)
    (messageValid : Bool) (processingOk : Bool) : ChatOutcome × GuestSessions :=
  match getCurrentUserWithGuestLimit now key gs with
  | (.rejected403, gs1) => (.httpError 403 guestLimitDetail, gs1)
  | (.admitted, gs1) =>
    if !messageValid then (.httpError 400 emptyMessageDetail, gs1)
    else if processingOk then (.ok, incrementGuestChatCount now key gs1)
    else (.httpError 500 chatFailureDetail, gs1)

/-- A sequence of guest chat requests at the given times, each with a valid
message and successful processing when admitted. Returns the outcomes in order
and the final `guest_sessions` state. -/
def runGuestChats (key : String) : List Int → GuestSessions →
    List ChatOutcome × GuestSessions
  | [], gs => ([], gs)
  | t :: ts, gs =>
    let r := sendMessageGuest t key gs true true
    let rest := runGuestChats key ts r.2
    (r.1 :: rest.1, rest.2)

theorem cleanup_key_none (now : Int) (gs : GuestSessions) (key : String)
    (h : gs key = none) : cleanupExpiredGuestSessions now gs key = none := by
  simp [cleanupExpiredGuestSessions, h]

theorem cleanup_key_live (now : Int) (gs : GuestSessions) (key : String)
    (s : GuestSession) (h : gs key = some s)
    (hwin : ¬ now - s.created_at > GUEST_SESSION_DURATION) :
    cleanupExpiredGuestSessions now gs key = some s := by
  simp [cleanupExpiredGuestSessions, h, hwin]

theorem cleanup_key_expired (now : Int) (gs : GuestSessions) (key : String)
    (s : GuestSession) (h : gs key = some s)
    (hexp : now - s.created_at > GUEST_SESSION_DURATION) :
    cleanupExpiredGuestSessions now gs key = none := by
  simp [cleanupExpiredGuestSessions, h, hexp]

theorem getOrCreate_existing (now : Int) (key : String) (gs : GuestSessions)
    (s : GuestSession) (h : cleanupExpiredGuestSessions now gs key = some s) :
    getOrCreateGuestSession now key gs = (s, cleanupExpiredGuestSessions now gs) := by
  simp [getOrCreateGuestSession, h]

theorem getOrCreate_fresh (now : Int) (key : String) (gs : GuestSessions)
    (h : cleanupExpiredGuestSessions now gs key = none) :
    getOrCreateGuestSession now key gs =
      (⟨0, now, 0⟩, fun k => if k = key then some ⟨0, now, 0⟩
                             else cleanupExpiredGuestSessions now gs k) := by
  simp [getOrCreateGuestSession, h]

theorem sendMessage_success_fresh (now : Int) (key : String) (gs : GuestSessions)
    (h : gs key = none) :
    (sendMessageGuest now key gs true true).1 = .ok ∧
    (sendMessageGuest now key gs true true).2 key = some ⟨1, now, now⟩ := by
  have h1 : cleanupExpiredGuestSessions now gs key = none := cleanup_key_none now gs key h
  have h2 := getOrCreate_fresh now key gs h1
  have h3 : cleanupExpiredGuestSessions now
      (fun k => if k = key then some ⟨0, now, 0⟩ else cleanupExpiredGuestSessions now gs k)
      key = some (⟨0, now, 0⟩ : GuestSession) := by
    simp [cleanupExpiredGuestSessions, GUEST_SESSION_DURATION]
  have h4 := getOrCreate_existing now key _ _ h3
  constructor <;>
    simp [sendMessageGuest, getCurrentUserWithGuestLimit, h2, GUEST_CHAT_LIMIT,
      incrementGuestChatCount, h4, setSession]

theorem sendMessage_success_existing (now : Int) (key : String) (gs : GuestSessions)
    (c : Nat) (t l : Int) (h : gs key = some ⟨c, t, l⟩)
    (hwin : ¬ now - t > GUEST_SESSION_DURATION) (hc : c < GUEST_CHAT_LIMIT) :
    (sendMessageGuest now key gs true true).1 = .ok ∧
    (sendMessageGuest now key gs true true).2 key = some ⟨c + 1, t, now⟩ := by
  have h1 : cleanupExpiredGuestSessions now gs key = some ⟨c, t, l⟩ :=
    cleanup_key_live now gs key _ h hwin
  have h2 := getOrCreate_existing now key gs _ h1
  have h3 : cleanupExpiredGuestSessions now (cleanupExpiredGuestSessions now gs) key
      = some ⟨c, t, l⟩ := cleanup_key_live now _ key _ h1 hwin
  have h4 := getOrCreate_existing now key (cleanupExpiredGuestSessions now gs) _ h3
  constructor <;>
    simp [sendMessageGuest, getCurrentUserWithGuestLimit, h2, Nat.not_le.mpr hc,
      incrementGuestChatCount, h4, setSession]

theorem sendMessage_reject (now : Int) (key : String) (gs : GuestSessions)
    (c : Nat) (t l : Int) (mv pok : Bool) (h : gs key = some ⟨c, t, l⟩)
    (hwin : ¬ now - t > GUEST_SESSION_DURATION) (hc : GUEST_CHAT_LIMIT ≤ c) :
    sendMessageGuest now key gs mv pok =
      (.httpError 403 guestLimitDetail, cleanupExpiredGuestSessions now gs) := by
  have h1 : cleanupExpiredGuestSessions now gs key = some ⟨c, t, l⟩ :=
    cleanup_key_live now gs key _ h hwin
  have h2 := getOrCreate_existing now key gs _ h1
  simp [sendMessageGuest, getCurrentUserWithGuestLimit, h2, hc]

theorem sendMessage_invalid (now : Int) (key : String) (gs : GuestSessions)
    (c : Nat) (t l : Int) (pok : Bool) (h : gs key = some ⟨c, t, l⟩)
    (hwin : ¬ now - t > GUEST_SESSION_DURATION) (hc : c < GUEST_CHAT_LIMIT) :
    sendMessageGuest now key gs false pok =
      (.httpError 400 emptyMessageDetail, cleanupExpiredGuestSessions now gs) := by
  have h1 : cleanupExpiredGuestSessions now gs key = some ⟨c, t, l⟩ :=
    cleanup_key_live now gs key _ h hwin
  have h2 := getOrCreate_existing now key gs _ h1
  simp [sendMessageGuest, getCurrentUserWithGuestLimit, h2, Nat.not_le.mpr hc]

theorem sendMessage_processing_failure (now : Int) (key : String) (gs : GuestSessions)
    (c : Nat) (t l : Int) (h : gs key = some ⟨c, t, l⟩)
    (hwin : ¬ now - t > GUEST_SESSION_DURATION) (hc : c < GUEST_CHAT_LIMIT) :
    sendMessageGuest now key gs true false =
      (.httpError 500 chatFailureDetail, cleanupExpiredGuestSessions now gs) := by
  have h1 : cleanupExpiredGuestSessions now gs key = some ⟨c, t, l⟩ :=
    cleanup_key_live now gs key _ h hwin
  have h2 := getOrCreate_existing now key gs _ h1
  simp [sendMessageGuest, getCurrentUserWithGuestLimit, h2, Nat.not_le.mpr hc]

/-- C1: for a guest fingerprint starting from a fresh (absent) session record,
with every request inside the 24-hour window opened by the first one and every
admitted chat completing successfully, the first five chat requests are
admitted (and succeed) and the sixth is rejected with HTTP 403. -/
theorem guest_limit_first_five_admitted_sixth_rejected
    (gs : GuestSessions) (key : String) (t1 t2 t3 t4 t5 t6 : Int)
    (h0 : gs key = none)
    (h2 : t2 - t1 ≤ GUEST_SESSION_DURATION) (h3 : t3 - t1 ≤ GUEST_SESSION_DURATION)
    (h4 : t4 - t1 ≤ GUEST_SESSION_DURATION) (h5 : t5 - t1 ≤ GUEST_SESSION_DURATION)
    (h6 : t6 - t1 ≤ GUEST_SESSION_DURATION) :
    (runGuestChats key [t1, t2, t3, t4, t5, t6] gs).1 =
      [.ok, .ok, .ok, .ok, .ok, .httpError 403 guestLimitDetail] := by
  have e1 := sendMessage_success_fresh t1 key gs h0
  have e2 := sendMessage_success_existing t2 key _ 1 t1 t1 e1.2 (not_lt.mpr h2)
    (by decide)
  have e3 := sendMessage_success_existing t3 key _ 2 t1 t2 e2.2 (not_lt.mpr h3)
    (by decide)
  have e4 := sendMessage_success_existing t4 key _ 3 t1 t3 e3.2 (not_lt.mpr h4)
    (by decide)
  have e5 := sendMessage_success_existing t5 key _ 4 t1 t4 e4.2 (not_lt.mpr h5)
    (by decide)
  have e6 := sendMessage_reject t6 key _ 5 t1 t5 true true e5.2 (not_lt.mpr h6)
    (le_refl _)
  simp [runGuestChats, e1.1, e2.1, e3.1, e4.1, e5.1, e6]

theorem guest_limit_witness :
    (runGuestChats "k" [0, 1, 2, 3, 4, 5] emptySessions).1 =
      [.ok, .ok, .ok, .ok, .ok, .httpError 403 guestLimitDetail] :=
  guest_limit_first_five_admitted_sixth_rejected emptySessions "k" 0 1 2 3 4 5 rfl
    (by decide) (by decide) (by decide) (by decide) (by decide)

/-- C4: a guest session record created more than 24 hours ago is purged by the
cleanup run on the next access to guest-session state (whatever fingerprint
that access is for), and a subsequent lookup for its fingerprint creates a
fresh record with `chat_count = 0`. -/
theorem expired_guest_session_purged_and_reset
    (gs : GuestSessions) (now : Int) (key key2 : String) (s : GuestSession)
    (h : gs key = some s) (hexp : now - s.created_at > GUEST_SESSION_DURATION) :
    cleanupExpiredGuestSessions now gs key = none ∧
    (getOrCreateGuestSession now key gs).1 = ⟨0, now, 0⟩ ∧
    (getOrCreateGuestSession now key gs).2 key = some ⟨0, now, 0⟩ ∧
    (key2 ≠ key → (getOrCreateGuestSession now key2 gs).2 key = none) := by
  have h1 : cleanupExpiredGuestSessions now gs key = none :=
    cleanup_key_expired now gs key s h hexp
  have h2 := getOrCreate_fresh now key gs h1
  refine ⟨h1, by simp [h2], by simp [h2], ?_⟩
  intro hne
  rcases hc : cleanupExpiredGuestSessions now gs key2 with _ | s2
  · simp [getOrCreate_fresh now key2 gs hc, h1, hne.symm]
  · simp [getOrCreate_existing now key2 gs s2 hc, h1]

theorem expired_guest_session_witness :
    (cleanupExpiredGuestSessions 90000 (setSession "k" ⟨3, 0, 7⟩ emptySessions) "k"
      = none) ∧
    ((getOrCreateGuestSession 90000 "k" (setSession "k" ⟨3, 0, 7⟩ emptySessions)).1
      = ⟨0, 90000, 0⟩) ∧
    ((getOrCreateGuestSession 90000 "k" (setSession "k" ⟨3, 0, 7⟩ emptySessions)).2 "k"
      = some ⟨0, 90000, 0⟩) ∧
    ("j" ≠ "k" →
      (getOrCreateGuestSession 90000 "j" (setSession "k" ⟨3, 0, 7⟩ emptySessions)).2 "k"
        = none) :=
  expired_guest_session_purged_and_reset (setSession "k" ⟨3, 0, 7⟩ emptySessions)
    90000 "k" "j" ⟨3, 0, 7⟩ (by decide) (by decide)

/-- C5: for a guest chat request on an existing, unexpired session record, the
admission dependency leaves the record unchanged, a successful chat increments
`chat_count` by exactly one (and updates `last_chat_at`), and any rejected
(403/400) or failed (500) request leaves the record unchanged. -/
theorem guest_chat_count_increment_iff_success
    (gs : GuestSessions) (now : Int) (key : String) (c : Nat) (t l : Int)
    (mv pok : Bool)
    (h : gs key = some ⟨c, t, l⟩) (hwin : ¬ now - t > GUEST_SESSION_DURATION) :
    ((getCurrentUserWithGuestLimit now key gs).2 key = some ⟨c, t, l⟩) ∧
    ((sendMessageGuest now key gs mv pok).1 = .ok →
      (sendMessageGuest now key gs mv pok).2 key = some ⟨c + 1, t, now⟩) ∧
    ((sendMessageGuest now key gs mv pok).1 ≠ .ok →
      (sendMessageGuest now key gs mv pok).2 key = some ⟨c, t, l⟩) := by
  have h1 : cleanupExpiredGuestSessions now gs key = some ⟨c, t, l⟩ :=
    cleanup_key_live now gs key _ h hwin
  have h2 := getOrCreate_existing now key gs _ h1
  have hadm : (getCurrentUserWithGuestLimit now key gs).2 key = some ⟨c, t, l⟩ := by
    simp [getCurrentUserWithGuestLimit, h2, apply_ite Prod.snd, h1]
  refine ⟨hadm, ?_, ?_⟩ <;> rcases Nat.lt_or_ge c GUEST_CHAT_LIMIT with hc | hc
  · intro hok
    cases mv
    · rw [sendMessage_invalid now key gs c t l pok h hwin hc] at hok
      simp at hok
    · cases pok
      · rw [sendMessage_processing_failure now key gs c t l h hwin hc] at hok
        simp at hok
      · exact (sendMessage_success_existing now key gs c t l h hwin hc).2
  · intro hok
    rw [sendMessage_reject now key gs c t l mv pok h hwin hc] at hok
    simp at hok
  · intro hne
    cases mv
    · rw [sendMessage_invalid now key gs c t l pok h hwin hc]
      exact h1
    · cases pok
      · rw [sendMessage_processing_failure now key gs c t l h hwin hc]
        exact h1
      · exact absurd (sendMessage_success_existing now key gs c t l h hwin hc).1 hne
  · intro _hne
    rw [sendMessage_reject now key gs c t l mv pok h hwin hc]
    exact h1

theorem guest_chat_count_witness :
    ((getCurrentUserWithGuestLimit 50 "k" (setSession "k" ⟨2, 10, 20⟩ emptySessions)).2 "k"
      = some ⟨2, 10, 20⟩) ∧
    ((sendMessageGuest 50 "k" (setSession "k" ⟨2, 10, 20⟩ emptySessions) true true).1 = .ok →
      (sendMessageGuest 50 "k" (setSession "k" ⟨2, 10, 20⟩ emptySessions) true true).2 "k"
        = some ⟨2 + 1, 10, 50⟩) ∧
    ((sendMessageGuest 50 "k" (setSession "k" ⟨2, 10, 20⟩ emptySessions) true true).1 ≠ .ok →
      (sendMessageGuest 50 "k" (setSession "k" ⟨2, 10, 20⟩ emptySessions) true true).2 "k"
        = some ⟨2, 10, 20⟩) :=
  guest_chat_count_increment_iff_success (setSession "k" ⟨2, 10, 20⟩ emptySessions)
    50 "k" 2 10 20 true true (by decide) (by decide)

/-- C10: querying guest chat status never changes any existing unexpired
session record (for any fingerprint, including the queried one); the returned
`chat_count` is the one of the (possibly freshly created) record for the
queried key, `remaining_chats` equals `max 0 (limit - chat_count)`, and
`is_limit_reached` holds exactly when `chat_count ≥ limit`. -/
theorem guest_status_readonly_and_values
    (gs : GuestSessions) (now : Int) (key k2 : String) (s2 : GuestSession)
    (h2 : gs k2 = some s2) (hwin : ¬ now - s2.created_at > GUEST_SESSION_DURATION) :
    ((getGuestChatStatus now key gs).2 k2 = some s2) ∧
    ((getGuestChatStatus now key gs).1.chat_count
      = (getOrCreateGuestSession now key gs).1.chat_count) ∧
    ((getGuestChatStatus now key gs).1.remaining_chats =
      max 0 ((GUEST_CHAT_LIMIT : Int) - ((getGuestChatStatus now key gs).1.chat_count : Int))) ∧
    ((getGuestChatStatus now key gs).1.is_limit_reached = true ↔
      (getGuestChatStatus now key gs).1.chat_count ≥ GUEST_CHAT_LIMIT) := by
  have hc2 : cleanupExpiredGuestSessions now gs k2 = some s2 :=
    cleanup_key_live now gs k2 _ h2 hwin
  refine ⟨?_, by simp [getGuestChatStatus], by simp [getGuestChatStatus], ?_⟩
  · rcases hc : cleanupExpiredGuestSessions now gs key with _ | s
    · have hne : k2 ≠ key := by
        intro hk; rw [hk] at hc2; rw [hc2] at hc; cases hc
      simp [getGuestChatStatus, getOrCreate_fresh now key gs hc, hne, hc2]
    · simp [getGuestChatStatus, getOrCreate_existing now key gs s hc, hc2]
  · simp [getGuestChatStatus]

theorem guest_status_witness :
    (((getGuestChatStatus 50 "k" (setSession "j" ⟨4, 10, 20⟩ emptySessions)).2 "j"
      = some ⟨4, 10, 20⟩)) ∧
    ((getGuestChatStatus 50 "k" (setSession "j" ⟨4, 10, 20⟩ emptySessions)).1.chat_count
      = (getOrCreateGuestSession 50 "k" (setSession "j" ⟨4, 10, 20⟩ emptySessions)).1.chat_count) ∧
    ((getGuestChatStatus 50 "k" (setSession "j" ⟨4, 10, 20⟩ emptySessions)).1.remaining_chats =
      max 0 ((GUEST_CHAT_LIMIT : Int) -
        ((getGuestChatStatus 50 "k" (setSession "j" ⟨4, 10, 20⟩ emptySessions)).1.chat_count : Int))) ∧
    ((getGuestChatStatus 50 "k" (setSession "j" ⟨4, 10, 20⟩ emptySessions)).1.is_limit_reached = true ↔
      (getGuestChatStatus 50 "k" (setSession "j" ⟨4, 10, 20⟩ emptySessions)).1.chat_count
        ≥ GUEST_CHAT_LIMIT) :=
  guest_status_readonly_and_values (setSession "j" ⟨4, 10, 20⟩ emptySessions)
    50 "k" "j" ⟨4, 10, 20⟩ (by decide) (by decide)

/-- JWT claims payload. Every token minted by `JWTService` carries the claims
dict `data = {"sub": user_id}` plus the `exp` claim added by the create
functions (jwt_service.py lines 10-23); `sub` stays optional because
`get_user_by_token` guards against a missing subject. -/
structure JWTPayload where
  sub : Option String
  exp : Int
  deriving Repr, DecidableEq

/-- Symbolic model of the HMAC signature computed by `jose.jwt.encode` with
`settings.JWT_SECRET_KEY` and `settings.JWT_ALGORITHM`: an ideal MAC binds the
secret and the signed claims, so it is represented by the pair itself. -/
def mkSig (secret : String) (p : JWTPayload) : String × JWTPayload := (secret, p)

/-- A JWT as transmitted: the claims it asserts plus the signature it carries.
A tampered token is one whose `sig` is not `mkSig secret payload`. -/
structure JWTToken where
  payload : JWTPayload
  sig : String × JWTPayload
  deriving Repr, DecidableEq

/-- Modelled from the spec: `jose.jwt.decode(token, secret, algorithms)` — an
external library call. It raises `JWTError` when the signature does not verify
under `secret`, raises `ExpiredSignatureError` (a `JWTError`) when the `exp`
claim lies strictly in the past, and otherwise returns the claims dict. -/
def joseDecode (secret : String) (now : Int) (t : JWTToken) : Option JWTPayload :=
  if t.sig = mkSig secret t.payload then
    if t.payload.exp < now then none else some t.payload
  else none

/-- `settings.JWT_ACCESS_TOKEN_EXPIRE_MINUTES` default (config.py). -/
def JWT_ACCESS_TOKEN_EXPIRE_MINUTES : Int := 30

/-- `settings.JWT_REFRESH_TOKEN_EXPIRE_DAYS` default (config.py). -/
def JWT_REFRESH_TOKEN_EXPIRE_DAYS : Int := 7

/-- `JWTService.create_access_token` (jwt_service.py lines 9-15): expiry is
`now + expires_delta` or `now + JWT_ACCESS_TOKEN_EXPIRE_MINUTES` minutes; the
claims are signed with the configured secret. -/
def create_access_token (secret : String) (now : Int) (sub : Option String)
    (expires_delta : Option Int) : JWTToken :=
  let exp := now + (match expires_delta with
    | some d => d
    | none => JWT_ACCESS_TOKEN_EXPIRE_MINUTES * 60)
  { payload := ⟨sub, exp⟩, sig := mkSig secret ⟨sub, exp⟩ }

/-- `JWTService.create_refresh_token` (jwt_service.py lines 17-23). -/
def create_refresh_token (secret : String) (now : Int) (sub : Option String) :
    JWTToken :=
  let exp := now + JWT_REFRESH_TOKEN_EXPIRE_DAYS * 24 * 60 * 60
  { payload := ⟨sub, exp⟩, sig := mkSig secret ⟨sub, exp⟩ }

/-- `JWTService.verify_token` (jwt_service.py lines 25-31): decode with the
configured secret and algorithm, returning `None` on any `JWTError`. -/
def verify_token (secret : String) (now : Int) (t : JWTToken) : Option JWTPayload :=
  joseDecode secret now t

/-- `JWTService.verify_access_token` (jwt_service.py lines 33-36):
literally `return JWTService.verify_token(token)`. -/
def verify_access_token (secret : String) (now : Int) (t : JWTToken) :
    Option JWTPayload :=
  verify_token secret now t

/-- `JWTService.verify_refresh_token` (jwt_service.py lines 38-45): its body
repeats the same `jwt.decode` call with the same secret and algorithm. -/
def verify_refresh_token (secret : String) (now : Int) (t : JWTToken) :
    Option JWTPayload :=
  joseDecode secret now t

/-- C3: `verify_token` returns `None` exactly when the signature does not
verify under the configured secret or the expiry has passed, and returns the
decoded payload for every well-formed token signed with the configured secret
whose expiry has not passed; no further condition enters the result. -/
theorem verify_token_signature_and_expiry_only (secret : String) (now : Int)
    (t : JWTToken) :
    (verify_token secret now t = none ↔
      (t.sig ≠ mkSig secret t.payload ∨ t.payload.exp < now)) ∧
    (t.sig = mkSig secret t.payload → ¬ t.payload.exp < now →
      verify_token secret now t = some t.payload) := by
  constructor
  · constructor
    · intro hnone
      by_cases hsig : t.sig = mkSig secret t.payload
      · refine Or.inr ?_
        by_contra hexp
        simp [verify_token, joseDecode, hsig, hexp] at hnone
      · exact Or.inl hsig
    · rintro (hsig | hexp)
      · simp [verify_token, joseDecode, hsig]
      · simp [verify_token, joseDecode, hexp]
  · intro hsig hexp
    simp [verify_token, joseDecode, hsig, hexp]

theorem verify_token_witness :
    (verify_token "secret" 0 ⟨⟨some "u1", 100⟩, ("secret", ⟨some "u1", 100⟩)⟩
      = none ↔
      ((⟨⟨some "u1", 100⟩, ("secret", ⟨some "u1", 100⟩)⟩ : JWTToken).sig
          ≠ mkSig "secret" ⟨some "u1", 100⟩ ∨ (100 : Int) < 0)) ∧
    ((⟨⟨some "u1", 100⟩, ("secret", ⟨some "u1", 100⟩)⟩ : JWTToken).sig
        = mkSig "secret" ⟨some "u1", 100⟩ → ¬ (100 : Int) < 0 →
      verify_token "secret" 0 ⟨⟨some "u1", 100⟩, ("secret", ⟨some "u1", 100⟩)⟩
        = some ⟨some "u1", 100⟩) :=
  verify_token_signature_and_expiry_only "secret" 0
    ⟨⟨some "u1", 100⟩, ("secret", ⟨some "u1", 100⟩)⟩

/-- C9: `verify_access_token` and `verify_refresh_token` return identical
results on every token at every time under every secret — nothing in
verification distinguishes the two token kinds, so an unexpired token minted
as one kind is accepted by the other kind's verification. -/
theorem verify_access_eq_verify_refresh (secret : String) (now : Int)
    (t : JWTToken) :
    verify_access_token secret now t = verify_refresh_token secret now t := rfl

/-- Per-instance `AuthService` state (auth_service.py line 34): the in-memory
`_blacklisted_tokens` set, modelled as a duplicate-free list. -/
structure AuthServiceState where
  blacklisted_tokens : List JWTToken
  deriving Repr, DecidableEq

/-- `AuthService.__init__` (auth_service.py lines 29-34):
`self._blacklisted_tokens = set()`. -/
def newAuthService : AuthServiceState := ⟨[]⟩

/-- Python `set.add` on the blacklist. -/
def blacklistAdd (tok : JWTToken) (bl : List JWTToken) : List JWTToken :=
  if tok ∈ bl then bl else tok :: bl

/-- `AuthService.logout` (auth_service.py lines 226-247): add the token to
this instance's blacklist when one is provided; return `True`. -/
def authLogout (st : AuthServiceState) (access_token : Option JWTToken) :
    Bool × AuthServiceState :=
  match access_token with
  | some tok => (true, ⟨blacklistAdd tok st.blacklisted_tokens⟩)
  | none => (true, st)

/-- `AuthService._cleanup_expired_tokens` (auth_service.py lines 565-587):
keep exactly the blacklisted tokens that still decode and whose `exp` claim is
not in the past (`not payload or payload.get("exp", 0) < current_time` marks a
token expired). -/
def cleanup_expired_tokens (secret : String) (now : Int) (st : AuthServiceState) :
    AuthServiceState :=
  ⟨st.blacklisted_tokens.filter (fun tok =>
    match verify_token secret now tok with
    | none => false
    | some p => ! decide (p.exp < now))⟩

/-- `AuthService.get_user_by_token` (auth_service.py lines 249-288): run the
opportunistic blacklist cleanup when the blacklist is non-empty and its size
is a multiple of 100; reject a blacklisted token; otherwise verify the token,
extract `sub`, and look the user up in Firebase (abstracted by `fb`, which
says whether a uid has both an auth record and a profile). -/
def get_user_by_token (secret : String) (fb : String → Bool) (now : Int)
    (st : AuthServiceState) (tok : JWTToken) : Option String × AuthServiceState :=
  let st1 :=
    if 0 < st.blacklisted_tokens.length ∧ st.blacklisted_tokens.length % 100 = 0
      then cleanup_expired_tokens secret now st else st
  if tok ∈ st1.blacklisted_tokens then (none, st1)
  else
    match verify_access_token secret now tok with
    | none => (none, st1)
    | some p =>
      match p.sub with
      | none => (none, st1)
      | some uid => if fb uid then (some uid, st1) else (none, st1)

/-- C6: the blacklist is mutated by verification only through the opportunistic
cleanup, which runs exactly when the blacklist is non-empty with size a
multiple of 100 (roughly every 100 insertions) and then removes exactly the
tokens that no longer decode or whose expiry has passed; logout only ever adds
the presented token. -/
theorem blacklist_pruning_trigger_and_exactness (secret : String)
    (fb : String → Bool) (now : Int) (st : AuthServiceState) (tok : JWTToken) :
    (tok ∈ (cleanup_expired_tokens secret now st).blacklisted_tokens ↔
      tok ∈ st.blacklisted_tokens ∧
        ∃ p, verify_token secret now tok = some p ∧ ¬ p.exp < now) ∧
    ((get_user_by_token secret fb now st tok).2 =
      if 0 < st.blacklisted_tokens.length ∧ st.blacklisted_tokens.length % 100 = 0
        then cleanup_expired_tokens secret now st else st) ∧
    ((authLogout st (some tok)).2.blacklisted_tokens =
      if tok ∈ st.blacklisted_tokens then st.blacklisted_tokens
      else tok :: st.blacklisted_tokens) := by
  refine ⟨?_, ?_, rfl⟩
  · rw [cleanup_expired_tokens]
    rw [List.mem_filter]
    rcases hv : verify_token secret now tok with _ | p
    · simp [hv]
    · simp [hv]
  · simp only [get_user_by_token]
    generalize (if 0 < st.blacklisted_tokens.length ∧
        st.blacklisted_tokens.length % 100 = 0
      then cleanup_expired_tokens secret now st else st) = st1
    by_cases hmem : tok ∈ st1.blacklisted_tokens
    · simp [hmem]
    · rcases hv : verify_access_token secret now tok with _ | p
      · simp [hmem, hv]
      · rcases hs : p.sub with _ | uid
        · simp [hmem, hv, hs]
        · by_cases hfb : fb uid = true <;> simp [hmem, hv, hs, hfb]

/-- The process-global middleware singleton `auth_middleware = AuthMiddleware()`
(auth_middleware.py lines 23-24 and 96): it owns the one AuthService instance
whose blacklist is consulted by every token verification going through the
`get_current_user_*` dependencies. -/
structure ProcessState where
  middleware_auth_service : AuthServiceState
  deriving Repr, DecidableEq

/-- `get_auth_service` (endpoints/auth.py lines 21-22): dependency injection
for the auth endpoints; it constructs a NEW `AuthService(firebase_service,
JWTService())` — with a fresh, empty `_blacklisted_tokens` set — on every
request. -/
def get_auth_service : AuthServiceState := newAuthService

/-- `POST /auth/logout` (endpoints/auth.py lines 108-141): the caller is
authenticated through the middleware instance; the presented bearer token is
then blacklisted on the request-scoped AuthService obtained from
`get_auth_service`, which goes out of scope when the handler returns. Only the
middleware instance survives in the process state. -/
def logoutEndpoint (secret : String) (fb : String → Bool) (now : Int)
    (tok : JWTToken) (ps : ProcessState) : Option String × ProcessState :=
  let auth := get_user_by_token secret fb now ps.middleware_auth_service tok
  match auth.1 with
  | none => (none, ⟨auth.2⟩)
  | some _uid =>
    let svc := get_auth_service
    let afterLogout := authLogout svc (some tok)
    let _requestScopedInstance := afterLogout.2
    (some "Successfully logged out", ⟨auth.2⟩)

/-- Token verification as performed for any subsequent protected request:
`auth_middleware.verify_token` calls `get_user_by_token` on the middleware
instance's AuthService (auth_middleware.py lines 74-93). -/
def verifyRequest (secret : String) (fb : String → Bool) (now : Int)
    (tok : JWTToken) (ps : ProcessState) : Option String × ProcessState :=
  let r := get_user_by_token secret fb now ps.middleware_auth_service tok
  (r.1, ⟨r.2⟩)

/-- C2 (code bug): a valid, unexpired access token of an existing user is
presented at logout; logout reports success, yet the middleware blacklist is
still empty afterwards and the very same token is accepted by the next
verification, because `get_auth_service` handed logout a fresh request-scoped
AuthService whose blacklist was discarded with the request. -/
theorem logout_blacklist_ineffective :
    (logoutEndpoint "secret" (fun uid => uid == "u1") 0
        ⟨⟨some "u1", 100⟩, ("secret", ⟨some "u1", 100⟩)⟩ ⟨newAuthService⟩).1
      = some "Successfully logged out" ∧
    ((logoutEndpoint "secret" (fun uid => uid == "u1") 0
        ⟨⟨some "u1", 100⟩, ("secret", ⟨some "u1", 100⟩)⟩
        ⟨newAuthService⟩).2.middleware_auth_service.blacklisted_tokens = []) ∧
    (verifyRequest "secret" (fun uid => uid == "u1") 0
        ⟨⟨some "u1", 100⟩, ("secret", ⟨some "u1", 100⟩)⟩
        (logoutEndpoint "secret" (fun uid => uid == "u1") 0
          ⟨⟨some "u1", 100⟩, ("secret", ⟨some "u1", 100⟩)⟩ ⟨newAuthService⟩).2).1
      = some "u1" := by
  refine ⟨?_, ?_, ?_⟩ <;> decide

/-- Raw numeric weather values of one forecast entry (weather_service.py).
Python floats only flow through sums, averages and threshold comparisons
here, so they are modelled by rationals; `none` models a missing key. -/
structure WeatherValues where
  temperatureAvg : Option ℚ
  temperatureMax : Option ℚ
  temperatureMin : Option ℚ
  windSpeedAvg : Option ℚ
  humidityAvg : Option ℚ
  cloudCoverAvg : Option ℚ
  uvIndexAvg : Option ℚ
  precipitationSum : Option ℚ
  rainAccumulationSum : Option ℚ
  deriving Repr, DecidableEq

/-- One forecast entry of the Tomorrow.io response; `none` in `time`/`values`
models a missing key, whose access raises `KeyError` (caught by the service). -/
structure ForecastEntry where
  time : Option String
  values : Option WeatherValues
  deriving Repr, DecidableEq

/-- The `data["timelines"]` object: `.get("daily")` / `.get("hourly")`. -/
structure Timelines where
  daily : Option (List ForecastEntry)
  hourly : Option (List ForecastEntry)
  deriving Repr, DecidableEq

/-- A parsed Tomorrow.io JSON body; `timelines = none` models the `KeyError`
on `data["timelines"]`. -/
structure WeatherApiJson where
  timelines : Option Timelines
  deriving Repr, DecidableEq

/-- Outcome of the single `requests.get` call: a raised
`requests.RequestException` (connection error, timeout, ...), or a response
with a status code and a body (`none` models `.json()` raising `ValueError`). -/
inductive HttpResponse where
  | requestFailure
  | response (status_code : Nat) (body : Option WeatherApiJson)
  deriving Repr, DecidableEq

/-- `label_temp` (weather_service.py lines 118-123). -/
def label_temp : Option ℚ → String
  | none => "unavailable"
  | some c =>
    if c < 5 then "cold" else if c < 15 then "cool"
    else if c < 25 then "warm" else "hot"

/-- `label_rain` (weather_service.py lines 125-130). -/
def label_rain : Option ℚ → String
  | none => "unavailable"
  | some mm =>
    if mm = 0 then "none" else if mm < 2 then "low"
    else if mm < 10 then "moderate" else "high"

/-- `label_wind` (weather_service.py lines 132-136). -/
def label_wind : Option ℚ → String
  | none => "unavailable"
  | some kph => if kph < 10 then "calm" else if kph < 25 then "breezy" else "strong"

/-- `label_uv` (weather_service.py lines 138-143). -/
def label_uv : Option ℚ → String
  | none => "unavailable"
  | some uv =>
    if uv < 3 then "low" else if uv < 6 then "moderate"
    else if uv < 8 then "high" else "very_high"

/-- `label_humidity` (weather_service.py lines 145-149). -/
def label_humidity : Option ℚ → String
  | none => "unavailable"
  | some h => if h < 30 then "dry" else if h < 60 then "moderate" else "humid"

/-- `label_clouds` (weather_service.py lines 151-156). -/
def label_clouds : Option ℚ → String
  | none => "unavailable"
  | some cloud =>
    if cloud < 10 then "clear" else if cloud < 40 then "partly_cloudy"
    else if cloud < 80 then "cloudy" else "overcast"

/-- The `raw` dict built by `generate_weather_summary`. -/
structure RawWeather where
  temp_avg_c : Option ℚ
  rain_mm : ℚ
  wind_kph : Option ℚ
  uv_index : Option ℚ
  humidity : Option ℚ
  cloud_cover : Option ℚ
  deriving Repr, DecidableEq

/-- The `signals` dict of qualitative labels. -/
structure WeatherSignals where
  temp_avg : String
  rain_chance : String
  wind_speed : String
  uv_index : String
  humidity : String
  cloud_cover : String
  deriving Repr, DecidableEq

/-- `WeatherService.generate_weather_summary` (weather_service.py lines
107-180): raw values extracted with `.get` (default 0 for the rain sum),
then bucketed into labels. -/
def generate_weather_summary (wd : WeatherValues) : WeatherSignals × RawWeather :=
  let raw : RawWeather :=
    { temp_avg_c := wd.temperatureAvg
      rain_mm := (wd.precipitationSum).getD 0
      wind_kph := wd.windSpeedAvg
      uv_index := wd.uvIndexAvg
      humidity := wd.humidityAvg
      cloud_cover := wd.cloudCoverAvg }
  ({ temp_avg := label_temp raw.temp_avg_c
     rain_chance := label_rain (some raw.rain_mm)
     wind_speed := label_wind raw.wind_kph
     uv_index := label_uv raw.uv_index
     humidity := label_humidity raw.humidity
     cloud_cover := label_clouds raw.cloud_cover }, raw)

/-- Average of the collected non-`None` values of one key, when any. -/
def avgOf (xs : List ℚ) : Option ℚ :=
  if xs.length = 0 then none else some (xs.sum / xs.length)

/-- `WeatherService._aggregate_daily_forecasts` (weather_service.py lines
65-105): averages each collected metric, sums the rain accumulations, and
finally overwrites `precipitationSum` with the `rainAccumulationSum` total.
Returns `none` when some entry has no `values` key (`KeyError`, caught by
`get_weather_forecast`). -/
def aggregate_daily_forecasts (entries : List ForecastEntry) :
    Option WeatherValues :=
  match entries.mapM (fun e => e.values) with
  | none => none
  | some vs =>
    let rainTotal := (vs.map (fun v => (v.rainAccumulationSum).getD 0)).sum
    some
      { temperatureAvg := avgOf (vs.filterMap (fun v => v.temperatureAvg))
        temperatureMax := avgOf (vs.filterMap (fun v => v.temperatureMax))
        temperatureMin := avgOf (vs.filterMap (fun v => v.temperatureMin))
        windSpeedAvg := avgOf (vs.filterMap (fun v => v.windSpeedAvg))
        humidityAvg := avgOf (vs.filterMap (fun v => v.humidityAvg))
        cloudCoverAvg := avgOf (vs.filterMap (fun v => v.cloudCoverAvg))
        uvIndexAvg := avgOf (vs.filterMap (fun v => v.uvIndexAvg))
        precipitationSum := some rainTotal
        rainAccumulationSum := some rainTotal }

/-- The summary dict returned by `get_weather_forecast` on success. -/
structure WeatherSummary where
  signals : WeatherSignals
  raw : RawWeather
  forecast_date : String
  deriving Repr, DecidableEq

/-- `WeatherService.get_weather_forecast` (weather_service.py lines 13-63),
as a function of the outcome of its single HTTP request. Every
`requests.RequestException` (including the HTTPError from `raise_for_status`
on 4xx/5xx), `ValueError` and `KeyError` is caught by the one `except` clause
and turned into `None`; missing or empty forecast data also yields `None`. -/
def get_weather_forecast (resp : HttpResponse) (timesteps : String) :
    Option WeatherSummary :=
  match resp with
  | .requestFailure => none
  | .response code body =>
    if 400 ≤ code ∧ code < 600 then none
    else
      match body with
      | none => none
      | some data =>
        match data.timelines with
        | none => none
        | some tl =>
          match (if timesteps = "1d" then tl.daily else tl.hourly) with
          | none => none
          | some [] => none
          | some (e :: es) =>
            if timesteps = "1d" then
              match aggregate_daily_forecasts (e :: es), e.time with
              | some wd, some date =>
                let s := generate_weather_summary wd
                some ⟨s.1, s.2, date⟩
              | _, _ => none
            else
              match e.values, e.time with
              | some wd, some date =>
                let s := generate_weather_summary wd
                some ⟨s.1, s.2, date⟩
              | _, _ => none

/-- The body of `get_weather_forecast` performs exactly one `requests.get`,
with no retry loop: of the outcomes the network would hand to successive
attempts (the oracle), only attempt 0 is consumed, and one attempt is made. -/
def get_weather_forecast_http (oracle : Nat → HttpResponse)
    (timesteps : String) : Option WeatherSummary × Nat :=
  (get_weather_forecast (oracle 0) timesteps, 1)

/-- C8: external-call failures surface immediately without retry — the
weather lookup returns `None` (and cannot raise) on a request error or
timeout, on a 4xx/5xx status, on an unparsable body, and on missing or empty
forecast data, all after exactly one attempt (its result depends only on the
first attempt's outcome); and a processing failure inside the chat handler is
translated by the handler boundary into a generic HTTP 500 with a user-safe
message. -/
theorem external_failures_surface_immediately (timesteps : String) :
    (get_weather_forecast .requestFailure timesteps = none) ∧
    (∀ code body, 400 ≤ code → code < 600 →
      get_weather_forecast (.response code body) timesteps = none) ∧
    (∀ code, get_weather_forecast (.response code none) timesteps = none) ∧
    (∀ code, get_weather_forecast (.response code (some ⟨none⟩)) timesteps = none) ∧
    (∀ code tl, (if timesteps = "1d" then tl.daily else tl.hourly) = none →
      get_weather_forecast (.response code (some ⟨some tl⟩)) timesteps = none) ∧
    (∀ code tl, (if timesteps = "1d" then tl.daily else tl.hourly) = some [] →
      get_weather_forecast (.response code (some ⟨some tl⟩)) timesteps = none) ∧
    (∀ oracle oracle2 : Nat → HttpResponse, oracle 0 = oracle2 0 →
      get_weather_forecast_http oracle timesteps
        = get_weather_forecast_http oracle2 timesteps) ∧
    (∀ oracle : Nat → HttpResponse,
      (get_weather_forecast_http oracle timesteps).2 = 1) ∧
    (∀ (now : Int) (key : String) (gs : GuestSessions) (c : Nat) (t l : Int),
      gs key = some ⟨c, t, l⟩ → ¬ now - t > GUEST_SESSION_DURATION →
      c < GUEST_CHAT_LIMIT →
      (sendMessageGuest now key gs true false).1
        = .httpError 500 chatFailureDetail) := by
  refine ⟨rfl, ?_, ?_, ?_, ?_, ?_, ?_, fun _ => rfl, ?_⟩
  · intro code body h1 h2
    simp [get_weather_forecast, h1, h2]
  · intro code
    simp [get_weather_forecast]
  · intro code
    simp [get_weather_forecast]
  · intro code tl h
    simp [get_weather_forecast, h]
  · intro code tl h
    simp [get_weather_forecast, h]
  · intro oracle oracle2 h
    simp [get_weather_forecast_http, h]
  · intro now key gs c t l hk hwin hc
    rw [sendMessage_processing_failure now key gs c t l hk hwin hc]

theorem external_failures_witness :
    get_weather_forecast (.response 503 none) "1d" = none ∧
    (get_weather_forecast_http (fun _ => .requestFailure) "1d").2 = 1 ∧
    (sendMessageGuest 50 "k" (setSession "k" ⟨2, 10, 20⟩ emptySessions)
      true false).1 = .httpError 500 chatFailureDetail :=
  ⟨(external_failures_surface_immediately "1d").2.1 503 none (by decide) (by decide),
   (external_failures_surface_immediately "1d").2.2.2.2.2.2.2.1
     (fun _ => .requestFailure),
   (external_failures_surface_immediately "1d").2.2.2.2.2.2.2.2
     50 "k" (setSession "k" ⟨2, 10, 20⟩ emptySessions) 2 10 20
     (by decide) (by decide) (by decide)⟩

/-- The request surface read by the guest fingerprinting helpers:
the `X-Forwarded-For` header, the transport-level peer host
(`request.client.host`, absent when `request.client` is `None`), and the
`User-Agent` header. -/
structure RequestInfo where
  x_forwarded_for : Option String
  client_host : Option String
  user_agent : Option String
  deriving Repr, DecidableEq

/-- `AuthMiddleware._get_client_ip` (auth_middleware.py lines 28-33): the
first comma-separated entry of `X-Forwarded-For`, stripped, when that header
is present and non-empty (Python truthiness; `str.strip` modelled by
`String.trim`); otherwise the connection host; otherwise "unknown". -/
def get_client_ip (r : RequestInfo) : String :=
  match r.x_forwarded_for with
  | some fwd =>
    if fwd ≠ "" then ((fwd.splitOn ",").headD "").trim
    else (r.client_host).getD "unknown"
  | none => (r.client_host).getD "unknown"

/-- Python's built-in `hash` on `str` is a fixed per-process function (SipHash
keyed by the process hash seed) whose results fit the 64-bit `Py_hash_t`
range. The derivation below takes it as a parameter; this predicate captures
what is known about it. -/
def PyHashBounded (h : String → Int) : Prop :=
  ∀ s, -(2 ^ 63) ≤ h s ∧ h s < 2 ^ 63

/-- `AuthMiddleware._get_guest_session_key` (auth_middleware.py lines 35-39):
the f-string `guest_{ip}_{hash(user_agent)}`, with the `User-Agent` header
defaulting to "unknown" and the hash value rendered in decimal. -/
def get_guest_session_key (pyhash : String → Int) (r : RequestInfo) : String :=
  "guest_" ++ get_client_ip r ++ "_"
    ++ toString (pyhash ((r.user_agent).getD "unknown"))

theorem digitChar_ne_underscore (n : Nat) : Nat.digitChar n ≠ '_' := by
  match n with
  | 0 | 1 | 2 | 3 | 4 | 5 | 6 | 7 | 8 | 9 | 10 | 11 | 12 | 13 | 14 | 15 => decide
  | n + 16 => exact (by decide : ('*' : Char) ≠ '_')

theorem toDigitsCore_no_underscore (b : Nat) (fuel : Nat) :
    ∀ (n : Nat) (ds : List Char), (∀ c ∈ ds, c ≠ '_') →
      ∀ c ∈ Nat.toDigitsCore b fuel n ds, c ≠ '_' := by
  induction fuel with
  | zero =>
    intro n ds hds c hc
    exact hds c hc
  | succ fuel ih =>
    intro n ds hds c hc
    simp only [Nat.toDigitsCore] at hc
    have hcons : ∀ d ∈ Nat.digitChar (n % b) :: ds, d ≠ '_' := by
      intro d hd
      rcases List.mem_cons.mp hd with h | h
      · exact h ▸ digitChar_ne_underscore (n % b)
      · exact hds d h
    by_cases hz : n / b = 0
    · rw [if_pos hz] at hc
      exact hcons c hc
    · rw [if_neg hz] at hc
      exact ih (n / b) (Nat.digitChar (n % b) :: ds) hcons c hc

theorem natRepr_no_underscore (n : Nat) : ('_' : Char) ∉ (Nat.repr n).data := by
  intro hmem
  have hnil : ∀ c ∈ ([] : List Char), c ≠ '_' := by
    intro c hc
    cases hc
  exact toDigitsCore_no_underscore 10 (n + 1) n [] hnil '_' hmem rfl

theorem intToString_no_underscore (i : Int) :
    ('_' : Char) ∉ (toString i).data := by
  rcases i with m | m
  · exact natRepr_no_underscore m
  · intro hmem
    have hsplit : ('_' : Char) ∈ ("-" ++ Nat.repr (m + 1)).data := hmem
    rw [String.data_append] at hsplit
    rcases List.mem_append.mp hsplit with h | h
    · exact absurd h (by decide)
    · exact natRepr_no_underscore (m + 1) h

theorem sep_split_first {α : Type} (sep : α) :
    ∀ (u1 v1 u2 v2 : List α), sep ∉ u1 → sep ∉ u2 →
      u1 ++ sep :: v1 = u2 ++ sep :: v2 → u1 = u2 ∧ v1 = v2 := by
  intro u1
  induction u1 with
  | nil =>
    intro v1 u2 v2 _h1 h2 heq
    cases u2 with
    | nil => simpa using heq
    | cons b u2' =>
      simp only [List.nil_append, List.cons_append, List.cons.injEq] at heq
      refine absurd ?_ h2
      rw [heq.1]
      exact List.mem_cons_self b u2'
  | cons a u1' ih =>
    intro v1 u2 v2 h1 h2 heq
    cases u2 with
    | nil =>
      simp only [List.nil_append, List.cons_append, List.cons.injEq] at heq
      refine absurd ?_ h1
      rw [← heq.1]
      exact List.mem_cons_self a u1'
    | cons b u2' =>
      simp only [List.cons_append, List.cons.injEq] at heq
      obtain ⟨hab, htail⟩ := heq
      obtain ⟨hu, hv⟩ := ih v1 u2' v2
        (fun hs => h1 (List.mem_cons_of_mem a hs))
        (fun hs => h2 (List.mem_cons_of_mem b hs)) htail
      exact ⟨by rw [hab, hu], hv⟩

theorem sep_split_last {α : Type} (sep : α) (x1 v1 x2 v2 : List α)
    (h1 : sep ∉ v1) (h2 : sep ∉ v2)
    (heq : x1 ++ sep :: v1 = x2 ++ sep :: v2) : x1 = x2 ∧ v1 = v2 := by
  have hrev : v1.reverse ++ sep :: x1.reverse
      = v2.reverse ++ sep :: x2.reverse := by
    have h := congrArg List.reverse heq
    simpa [List.reverse_append] using h
  obtain ⟨hu, hv⟩ := sep_split_first sep v1.reverse x1.reverse v2.reverse
    x2.reverse (by simpa using h1) (by simpa using h2) hrev
  exact ⟨List.reverse_injective hv, List.reverse_injective hu⟩

/-- C7, amended: within one process, two unauthenticated requests are tracked
under the same guest session key if and only if they agree on the derived
client IP and on the decimal rendering of the Python hash of their User-Agent
header value; the key is a deterministic function of exactly those two
inputs, but agreement on the User-Agent value itself is sufficient, not
necessary (colliding hashes share the record). -/
theorem guest_session_key_characterization (pyhash : String → Int)
    (r1 r2 : RequestInfo) :
    get_guest_session_key pyhash r1 = get_guest_session_key pyhash r2 ↔
      (get_client_ip r1 = get_client_ip r2 ∧
        toString (pyhash ((r1.user_agent).getD "unknown"))
          = toString (pyhash ((r2.user_agent).getD "unknown"))) := by
  constructor
  · intro heq
    have hdata := congrArg String.data heq
    simp only [get_guest_session_key, String.data_append, List.append_assoc]
      at hdata
    have hcut := List.append_cancel_left hdata
    rw [List.singleton_append, List.singleton_append] at hcut
    obtain ⟨hip, hh⟩ := sep_split_last '_' (get_client_ip r1).data
      (toString (pyhash ((r1.user_agent).getD "unknown"))).data
      (get_client_ip r2).data
      (toString (pyhash ((r2.user_agent).getD "unknown"))).data
      (intToString_no_underscore _) (intToString_no_underscore _) hcut
    exact ⟨String.ext hip, String.ext hh⟩
  · rintro ⟨hip, hh⟩
    simp only [get_guest_session_key, hip, hh]

/-- The User-Agent string of n repeated letters; an injection of the naturals
into the possible User-Agent header values. -/
def uaOf (n : Nat) : String := ⟨List.replicate n 'a'⟩

theorem uaOf_injective : Function.Injective uaOf := by
  intro m n hmn
  have hlen : (List.replicate m 'a').length = (List.replicate n 'a').length := by
    rw [show List.replicate m 'a' = (uaOf m).data from rfl, hmn]
    exact rfl
  simpa using hlen

/-- Counterexample to C7 as stated: whatever per-process function Python's
64-bit string hash is, it collides on two distinct User-Agent values (there
are infinitely many strings and at most 2^64 hash values), so two requests
with the same source IP but those two different User-Agent header values are
tracked under the same guest session key — key sharing is not equivalent to
agreement on the User-Agent value. -/
theorem guest_key_shared_despite_different_user_agents :
    ¬ ∃ h : String → Int, PyHashBounded h ∧
      ∀ r1 r2 : RequestInfo,
        get_guest_session_key h r1 = get_guest_session_key h r2 ↔
          (get_client_ip r1 = get_client_ip r2 ∧
            (r1.user_agent).getD "unknown" = (r2.user_agent).getD "unknown") := by
  rintro ⟨h, hb, hiff⟩
  have hfin : (Set.Icc (-(2 ^ 63) : Int) (2 ^ 63)).Finite := Set.finite_Icc _ _
  have : Finite ↥(Set.Icc (-(2 ^ 63) : Int) (2 ^ 63)) := hfin.to_subtype
  have hmemIcc : ∀ n : Nat, h (uaOf n) ∈ Set.Icc (-(2 ^ 63) : Int) (2 ^ 63) := by
    intro n
    exact Set.mem_Icc.mpr ⟨(hb (uaOf n)).1, le_of_lt (hb (uaOf n)).2⟩
  obtain ⟨m, n, hmn, hcoll⟩ :=
    Finite.exists_ne_map_eq_of_infinite
      (fun k : Nat => (⟨h (uaOf k), hmemIcc k⟩ : ↥(Set.Icc (-(2 ^ 63) : Int) (2 ^ 63))))
  have hcoll' : h (uaOf m) = h (uaOf n) := congrArg Subtype.val hcoll
  have hkey : get_guest_session_key h ⟨some "7.7.7.7", none, some (uaOf m)⟩
      = get_guest_session_key h ⟨some "7.7.7.7", none, some (uaOf n)⟩ := by
    simp only [get_guest_session_key, Option.getD_some]
    rw [hcoll']
    rfl
  have hua := ((hiff ⟨some "7.7.7.7", none, some (uaOf m)⟩
    ⟨some "7.7.7.7", none, some (uaOf n)⟩).mp hkey).2
  simp only [Option.getD_some] at hua
  exact hmn (uaOf_injective hua)

end RouteRishi
